import Mathlib

/-!
Shallow embedding of the Lox tree-walking evaluator
(`src/lox/ast.py`, `src/lox/transformer.py`).

Python's runtime values `bool | str | float | None` plus host callables are
modelled by the inductive `Value`; Python floats are modelled by `ℚ` (all
operations exercised by the theorems — negation, equality, printing of
integral values — are exact on floats). Python exceptions are modelled by
`Except LoxError`. Host callables are modelled by the `Callable` type:
a `base` native function plus `wrap` layers, the latter being exactly the
`wrapper` closures produced by `UnaryOp.eval`.

The repository's `lox/ctx.py` (the `Ctx` environment) and `lox/runtime.py`
(the operator functions `op.add`, `op.eq`, …, referenced by the transformer)
are not part of the sources; those definitions are modelled from the spec
and carry a doc comment saying so. Everything else is translated directly
from `src/lox/ast.py` and `src/lox/transformer.py`.
-/

/-- Non-callable runtime values: Python `bool | str | float | None`
(`Value` in `ast.py`), with floats modelled by `ℚ`. -/
inductive PrimValue where
  | boolean (b : Bool)
  | str (s : String)
  | num (q : ℚ)
  | nil
deriving DecidableEq, Repr

/-- Runtime error kinds raised by the evaluator (Python exceptions:
`NameError`, `TypeError`, `AttributeError`, `ZeroDivisionError`). -/
inductive LoxError where
  | undefinedVariable (name : String)
  | typeError (msg : String)
  | attributeError (attr : String)
  | zeroDivision
deriving DecidableEq, Repr

/-- The unary operator carried by a `UnaryOp` node. In the source the field
is a host function compared by identity against `op.neg` / `op.not_`
(`UnaryOp._apply`); only those two are ever produced by the transformer, so
the closed enum is faithful. -/
inductive UnOp where
  | neg
  | not_
deriving DecidableEq, Repr

/-- Host callables. `base` is a native function over non-callable values
(registered in the global context); `wrap u c` is the `wrapper` closure
built by `UnaryOp.eval` around callable `c` with operator `u`. -/
inductive Callable where
  | base (f : List PrimValue → Except LoxError PrimValue)
  | wrap (u : UnOp) (c : Callable)

/-- Modelled from the spec: a Lox class (name, optional superclass, method
table). The repository's object model (`Class`/`Instance` runtime) is not
implemented under `src/`; §3/§4.4 of the spec describe it. -/
inductive LoxClass where
  | mk (name : String) (superclass : Option LoxClass)
      (methods : List (String × Callable))

/-- Runtime values: primitives, callables, and instances. Instances are
modelled from the spec (§3): a class reference plus a field mapping. -/
inductive Value where
  | prim (p : PrimValue)
  | callable (c : Callable)
  | instanceVal (cls : LoxClass) (fields : List (String × Value))

/-- Truthiness coercion, translated from `is_truthy` in `ast.py`:
`False if val is False or val is None else True`. Python's `is` on `False`
and `None` identifies exactly the values `Boolean false` and `Nil`
(`Number 0` and `String ""` are distinct objects). -/
def is_truthy : Value → Bool
  | .prim (.boolean false) => false
  | .prim .nil => false
  | _ => true

/-- Application of a unary operator to an already-evaluated value,
translated from `UnaryOp._apply` in `ast.py`. Note the `neg` branch checks
`isinstance(val, (int, float))`, which a Python `bool` passes (`bool` is a
subclass of `int`), so `-true` yields the number `-1` and `-false` yields
`0` rather than raising `TypeError`. -/
def applyUn : UnOp → Value → Except LoxError Value
  | .neg, .prim (.num q) => .ok (.prim (.num (-q)))
  | .neg, .prim (.boolean b) => .ok (.prim (.num (if b then -1 else 0)))
  | .neg, _ => .error (.typeError "operando deve ser número.")
  | .not_, v => .ok (.prim (.boolean (! is_truthy v)))

/-- Coercion of a call argument to a non-callable value, used when invoking
a `base` native. Natives over callable or instance arguments are outside
the model (no such native appears in the sources). -/
def asPrim : Value → Except LoxError PrimValue
  | .prim p => .ok p
  | _ => .error (.typeError "argumento não suportado pelo modelo de nativo.")

def asPrims : List Value → Except LoxError (List PrimValue)
  | [] => .ok []
  | v :: vs => do
      let p ← asPrim v
      let ps ← asPrims vs
      .ok (p :: ps)

/-- Invocation of a callable. A `base` native applies its host function;
a `wrap u c` layer is the `wrapper` closure of `UnaryOp.eval`:
`wrapper(*args) = self._apply(val(*args))`, i.e. call the wrapped callable
on the same arguments and apply the unary operator to its result. -/
def Callable.call : Callable → List Value → Except LoxError Value
  | .base f, args => do
      let ps ← asPrims args
      let r ← f ps
      .ok (.prim r)
  | .wrap u c, args => do
      let r ← Callable.call c args
      applyUn u r

/-- Method lookup walking the superclass chain, modelled from the spec
(§4.4): own class's methods, then superclass, then its superclass, …;
first match wins. -/
def findMethod : LoxClass → String → Option Callable
  | .mk _ sup methods, name =>
      match methods.lookup name with
      | some m => some m
      | none =>
          match sup with
          | some s => findMethod s name
          | none => none

/-- Attribute lookup on a value, modelled from the spec (§4.4): on an
Instance, search the field mapping first, then the class's method chain
(binding of `this` is not observable in the model since user-function
bodies are unimplemented in the source); `none` means the host raises
`AttributeError` (host attributes of primitive values are not modelled). -/
def getattrValue : Value → String → Option Value
  | .instanceVal cls fields, attr =>
      match fields.lookup attr with
      | some v => some v
      | none => (findMethod cls attr).map .callable
  | _, _ => none

/-- Modelled from the spec: the `Ctx` environment (`lox/ctx.py` is not in
the sources; spec §4.2). A chain of scopes, innermost first; each scope is
a name-to-value mapping. -/
abbrev Env := List (List (String × Value))

/-- Modelled from the spec: `get(name)` walks the chain outward until the
name is found (`ctx[name]` in `Var.eval`). -/
def lookupEnv : Env → String → Option Value
  | [], _ => none
  | scope :: outer, name =>
      match scope.lookup name with
      | some v => some v
      | none => lookupEnv outer name

def assignScope : List (String × Value) → String → Value →
    Option (List (String × Value))
  | [], _, _ => none
  | (k, v₀) :: rest, name, v =>
      if k = name then some ((k, v) :: rest)
      else (assignScope rest name v).map ((k, v₀) :: ·)

/-- Modelled from the spec: `assign(name, value)` (`ctx[name] = value` in
`Assign.eval`) walks outward to the nearest scope where the name is already
defined and mutates it in place; `none` when the name is absent from the
whole chain (the spec's UndefinedVariable failure, §4.2/§4.1). -/
def assignEnv : Env → String → Value → Option Env
  | [], _, _ => none
  | scope :: outer, name, v =>
      match assignScope scope name v with
      | some scope₂ => some (scope₂ :: outer)
      | none => (assignEnv outer name v).map (scope :: ·)

/-- Modelled from the spec: the runtime operator `op.add` used by the
transformer (`lox/runtime.py` is not in the sources; spec §4.1: arithmetic
on non-numeric operands fails with a type error). -/
def lox_add : Value → Value → Except LoxError Value
  | .prim (.num a), .prim (.num b) => .ok (.prim (.num (a + b)))
  | _, _ => .error (.typeError "operandos devem ser números.")

/-- Modelled from the spec: the runtime operator `op.sub`. -/
def lox_sub : Value → Value → Except LoxError Value
  | .prim (.num a), .prim (.num b) => .ok (.prim (.num (a - b)))
  | _, _ => .error (.typeError "operandos devem ser números.")

/-- Modelled from the spec: the runtime operator `op.mul`. -/
def lox_mul : Value → Value → Except LoxError Value
  | .prim (.num a), .prim (.num b) => .ok (.prim (.num (a * b)))
  | _, _ => .error (.typeError "operandos devem ser números.")

/-- Modelled from the spec: the runtime operator `op.truediv`. Division by
zero raises (the host's `ZeroDivisionError`; the spec leaves the policy
open in §9, and no claim depends on it). -/
def lox_truediv : Value → Value → Except LoxError Value
  | .prim (.num a), .prim (.num b) =>
      if b = 0 then .error .zeroDivision else .ok (.prim (.num (a / b)))
  | _, _ => .error (.typeError "operandos devem ser números.")

/-- Modelled from the spec: value equality used by `op.eq` / `op.ne`
(§4.1): same-variant values compare by value, differing variants compare
unequal. Callables and instances compare by host identity, which is not
observable in the model; distinct host objects compare unequal. -/
def valueEq : Value → Value → Bool
  | .prim a, .prim b => a = b
  | _, _ => false

/-- Modelled from the spec: the runtime operator `op.eq`. -/
def lox_eq (a b : Value) : Except LoxError Value :=
  .ok (.prim (.boolean (valueEq a b)))

/-- Modelled from the spec: the runtime operator `op.ne`. -/
def lox_ne (a b : Value) : Except LoxError Value :=
  .ok (.prim (.boolean (! valueEq a b)))

/-- Expression nodes of `ast.py`. `binOp` carries the runtime operator
function, as in the source (`BinOp.op : Callable[[Value, Value], Value]`);
`unaryOp` carries the operator enum (the source stores `op.neg`/`op.not_`
and dispatches on identity in `UnaryOp._apply`). -/
inductive Expr where
  | literal (v : Value)
  | var (name : String)
  | binOp (left right : Expr) (op : Value → Value → Except LoxError Value)
  | and (left right : Expr)
  | or (left right : Expr)
  | unaryOp (op : UnOp) (right : Expr)
  | call (callee : Expr) (params : List Expr)
  | assign (name : String) (value : Expr)
  | getattr (obj : Expr) (attr : String)

mutual

/-- Expression evaluation, translated case by case from the `eval` methods
in `ast.py` (`Literal`, `Var`, `BinOp`, `And`, `Or`, `UnaryOp`, `Call`,
`Assign`, `Getattr`). Context mutation is explicit: the result pairs the
value with the updated environment. -/
def evalExpr : Expr → Env → Except LoxError (Value × Env)
  | .literal v, env => .ok (v, env)
  | .var name, env =>
      match lookupEnv env name with
      | some v => .ok (v, env)
      | none => .error (.undefinedVariable name)
  | .binOp l r f, env => do
      let (lv, env₁) ← evalExpr l env
      let (rv, env₂) ← evalExpr r env₁
      let v ← f lv rv
      .ok (v, env₂)
  | .and l r, env => do
      let (lv, env₁) ← evalExpr l env
      if is_truthy lv then evalExpr r env₁ else .ok (lv, env₁)
  | .or l r, env => do
      let (lv, env₁) ← evalExpr l env
      if is_truthy lv then .ok (lv, env₁) else evalExpr r env₁
  | .unaryOp u r, env => do
      let (v, env₁) ← evalExpr r env
      match v with
      | .callable c => .ok (.callable (.wrap u c), env₁)
      | v => do
          let w ← applyUn u v
          .ok (w, env₁)
  | .call callee params, env => do
      let (fn, env₁) ← evalExpr callee env
      let (args, env₂) ← evalArgs params env₁
      match fn with
      | .callable c => do
          let r ← Callable.call c args
          .ok (r, env₂)
      | _ => .error (.typeError "tentativa de chamar valor não-função!")
  | .assign name value, env => do
      let (v, env₁) ← evalExpr value env
      match assignEnv env₁ name v with
      | some env₂ => .ok (v, env₂)
      | none => .error (.undefinedVariable name)
  | .getattr obj attr, env => do
      let (v, env₁) ← evalExpr obj env
      match getattrValue v attr with
      | some r => .ok (r, env₁)
      | none => .error (.attributeError attr)

/-- Left-to-right evaluation of a call's argument list
(`[arg.eval(ctx) for arg in self.params]` in `Call.eval`). -/
def evalArgs : List Expr → Env → Except LoxError (List Value × Env)
  | [], env => .ok ([], env)
  | e :: es, env => do
      let (v, env₁) ← evalExpr e env
      let (vs, env₂) ← evalArgs es env₁
      .ok (v :: vs, env₂)

end

/-- Textual form of a number under Python's `str`/`print`, as used by
`Print.eval` (`print(self.expr.eval(ctx))`). An integral float prints with
a forced `.0` suffix (`str(1.0) == "1.0"`). The shortest-roundtrip repr of
non-integral floats is outside the rational model and is approximated; no
theorem evaluates it. -/
def pyNumStr (q : ℚ) : String :=
  if q.den = 1 then toString q.num ++ ".0" else toString q

/-- Textual form of a value under Python's `str`, as written by
`Print.eval`. Note the host conventions: `True`/`False`/`None`, not the
Lox spellings `true`/`false`/`nil`. The host repr of a function or object
includes its memory address and is modelled by an opaque tag. -/
def pyStr : Value → String
  | .prim (.boolean true) => "True"
  | .prim (.boolean false) => "False"
  | .prim .nil => "None"
  | .prim (.num q) => pyNumStr q
  | .prim (.str s) => s
  | .callable _ => "<function>"
  | .instanceVal _ _ => "<object>"

/-- Statement nodes of `ast.py` with an implemented `eval`. Only `Print`
has a body in the source (`Return`, `VarDef`, `If`, `For`, `While`,
`Function`, `Class` are stubs). -/
inductive Stmt where
  | print (expr : Expr)

/-- Statement execution, translated from `Print.eval` in `ast.py`:
evaluate the expression and write its host textual form to standard
output. Output is modelled as the list of printed lines. -/
def evalStmt : Stmt → Env → Except LoxError (Env × List String)
  | .print e, env => do
      let (v, env₁) ← evalExpr e env
      .ok (env₁, [pyStr v])

/-- Program execution, translated from `Program.eval` in `ast.py`:
execute the statements in order, concatenating their output. -/
def evalProgram : List Stmt → Env → Except LoxError (Env × List String)
  | [], env => .ok (env, [])
  | s :: rest, env => do
      let (env₁, out₁) ← evalStmt s env
      let (env₂, out₂) ← evalProgram rest env₁
      .ok (env₂, out₁ ++ out₂)

/-- The transformer's `not_` rule (`transformer.py`): a `!` applied to a
`Call` node is rewritten to `Call(UnaryOp(op.not_, callee), params)`;
otherwise a plain `UnaryOp` is built. -/
def transformer_not (right : Expr) : Expr :=
  match right with
  | .call callee params => .call (.unaryOp .not_ callee) params
  | _ => .unaryOp .not_ right

/-- The transformer's `neg` rule (`transformer.py`): a unary `-` applied
to a `Call` node is rewritten to `Call(UnaryOp(op.neg, callee), params)`;
otherwise a plain `UnaryOp` is built. -/
def transformer_neg (right : Expr) : Expr :=
  match right with
  | .call callee params => .call (.unaryOp .neg callee) params
  | _ => .unaryOp .neg right

/-- Bucket of a value's variant, used to state the cross-variant behaviour
of `op.eq` / `op.ne` and the `UnaryOp` special rule. -/
def variantIdx : Value → Nat
  | .prim (.boolean _) => 0
  | .prim (.str _) => 1
  | .prim (.num _) => 2
  | .prim .nil => 3
  | .callable _ => 4
  | .instanceVal _ _ => 5

/-- Predicate for the Number variant (Python `float`). Note a Python
`bool` is not of this variant, though `isinstance(b, int)` holds. -/
def Value.isNum : Value → Bool
  | .prim (.num _) => true
  | _ => false

/-- The four arithmetic operators the transformer installs on `BinOp`
nodes (`transformer.py`: `mul = op_handler(op.mul)`, `div`, `sub`,
`add`). -/
inductive ArithOp where
  | add | sub | mul | div
deriving DecidableEq, Repr

def ArithOp.toFun : ArithOp → (Value → Value → Except LoxError Value)
  | .add => lox_add
  | .sub => lox_sub
  | .mul => lox_mul
  | .div => lox_truediv

/-- A native callable that ignores its arguments and returns
`Boolean true`, used as a concrete wrapped callee. -/
def trueNative : Callable := .base (fun _ => .ok (.boolean true))

/-- A one-argument native callable returning its argument, used as a
concrete callee in call-rewrite instances. -/
def idNative : Callable :=
  .base (fun ps =>
    match ps with
    | [p] => .ok p
    | _ => .error (.typeError "número de argumentos inválido."))

/-- A class with no methods and no superclass, used as a concrete
instance class in attribute-lookup instances. -/
def emptyClass : LoxClass := .mk "Empty" none []

@[simp] theorem exceptBind_ok {α β : Type} (a : α) (f : α → Except LoxError β) :
    (Except.ok a >>= f) = f a := rfl

@[simp] theorem exceptBind_error {α β : Type} (err : LoxError) (f : α → Except LoxError β) :
    ((Except.error err : Except LoxError α) >>= f) = Except.error err := rfl

@[simp] theorem exceptBindF_ok {α β : Type} (a : α) (f : α → Except LoxError β) :
    Except.bind (Except.ok a) f = f a := rfl

@[simp] theorem exceptBindF_error {α β : Type} (err : LoxError) (f : α → Except LoxError β) :
    Except.bind (Except.error err : Except LoxError α) f = Except.error err := rfl

theorem assignScope_of_lookup_none (scope : List (String × Value)) (name : String) (v : Value)
    (h : scope.lookup name = none) : assignScope scope name v = none := by
  induction scope with
  | nil => rfl
  | cons kv rest ih =>
      obtain ⟨k, v₀⟩ := kv
      rw [List.lookup] at h
      cases hk : (name == k) with
      | true => rw [hk] at h; simp at h
      | false =>
          rw [hk] at h
          have hrest : List.lookup name rest = none := h
          have hk2 : k ≠ name := by
            intro he
            rw [he] at hk
            simp at hk
          simp [assignScope, hk2, ih hrest]

theorem assignEnv_of_lookup_none (env : Env) (name : String) (v : Value)
    (h : lookupEnv env name = none) : assignEnv env name v = none := by
  induction env with
  | nil => rfl
  | cons scope outer ih =>
      cases hs : scope.lookup name with
      | some w =>
          rw [lookupEnv, hs] at h
          simp at h
      | none =>
          rw [lookupEnv, hs] at h
          simp at h
          simp [assignEnv, assignScope_of_lookup_none scope name v hs, ih h]

/-- Claim C1 (counterexample): the claim's clause "Neg requires that result
to be numeric" fails. A `UnaryOp Neg` over a callable that returns
`Boolean true` evaluates to a wrapper; invoking the wrapper yields
`Number (-1)` — the host negates the boolean as the integer `1` — instead
of failing with a type error. -/
theorem unaryOp_wrap_neg_accepts_boolean_result :
    evalExpr (.unaryOp .neg (.literal (.callable trueNative))) []
      = .ok (.callable (.wrap .neg trueNative), []) ∧
    Callable.call (.wrap .neg trueNative) [] = .ok (.prim (.num (-1))) ∧
    Callable.call (.wrap .neg trueNative) []
      ≠ .error (.typeError "operando deve ser número.") := by
  refine ⟨rfl, rfl, ?_⟩
  intro h
  rw [show Callable.call (.wrap .neg trueNative) [] = .ok (.prim (.num (-1))) from rfl] at h
  exact Except.noConfusion h

/-- Claim C1 (amended): for every `UnaryOp` whose operand evaluates to a
callable, evaluation does not apply the operator; it returns a new
callable that, when invoked, calls the wrapped callable on the same
arguments and applies the operator to its result — where `Neg` requires
that result to be a Number or a Boolean (a Boolean is negated as the host
integer: `true ↦ -1`, `false ↦ 0`) and `Not` negates its truthiness. -/
theorem unaryOp_callable_wraps :
    ∀ (u : UnOp) (right : Expr) (env env₁ : Env) (c : Callable),
    evalExpr right env = .ok (.callable c, env₁) →
    evalExpr (.unaryOp u right) env = .ok (.callable (.wrap u c), env₁) ∧
    (∀ args, Callable.call (.wrap u c) args = (Callable.call c args).bind (applyUn u)) ∧
    (∀ q, applyUn .neg (.prim (.num q)) = .ok (.prim (.num (-q)))) ∧
    (∀ b, applyUn .neg (.prim (.boolean b)) = .ok (.prim (.num (if b then -1 else 0)))) ∧
    (∀ s, applyUn .neg (.prim (.str s)) = .error (.typeError "operando deve ser número.")) ∧
    applyUn .neg (.prim .nil) = .error (.typeError "operando deve ser número.") ∧
    (∀ v, applyUn .not_ v = .ok (.prim (.boolean (! is_truthy v)))) := by
  intro u right env env₁ c h
  refine ⟨?_, ?_, fun q => rfl, fun b => rfl, fun s => rfl, rfl, fun v => rfl⟩
  · simp [evalExpr, h]
  · intro args
    simp [Callable.call]
    rfl

/-- Claim C1 (witness): a concrete instantiation at `Not` over a native
returning `Boolean true`. -/
theorem unaryOp_callable_wraps_witness :
    evalExpr (.unaryOp .not_ (.literal (.callable trueNative))) []
      = .ok (.callable (.wrap .not_ trueNative), []) ∧
    Callable.call (.wrap .not_ trueNative) []
      = (Callable.call trueNative []).bind (applyUn .not_) :=
  ⟨(unaryOp_callable_wraps .not_ (.literal (.callable trueNative)) [] [] trueNative rfl).1,
   (unaryOp_callable_wraps .not_ (.literal (.callable trueNative)) [] [] trueNative rfl).2.1 []⟩

/-- Claim C2: truthiness yields `false` exactly on `Boolean false` and
`Nil`; every other value — including `Number 0` and the empty `String` —
is truthy. -/
theorem is_truthy_iff :
    ∀ v : Value,
    (is_truthy v = false ↔ v = .prim (.boolean false) ∨ v = .prim .nil) ∧
    is_truthy (.prim (.num 0)) = true ∧
    is_truthy (.prim (.str "")) = true := by
  intro v
  refine ⟨⟨?_, ?_⟩, rfl, rfl⟩
  · intro h
    cases v with
    | prim p =>
        cases p with
        | boolean b =>
            cases b with
            | false => exact Or.inl rfl
            | true => simp [is_truthy] at h
        | str s => simp [is_truthy] at h
        | num q => simp [is_truthy] at h
        | nil => exact Or.inr rfl
    | callable c => simp [is_truthy] at h
    | instanceVal cls fields => simp [is_truthy] at h
  · rintro (rfl | rfl) <;> rfl

/-- Claim C2 (witness): concrete truthiness evaluations. -/
theorem is_truthy_iff_witness :
    is_truthy (.prim (.boolean false)) = false ∧
    is_truthy (.prim (.num 0)) = true :=
  ⟨(is_truthy_iff (.prim (.boolean false))).1.mpr (Or.inl rfl),
   (is_truthy_iff (.prim (.num 0))).2.1⟩

/-- Claim C3: `And` evaluates its left operand; a falsy left value is
returned as-is (not coerced) and the right operand is never evaluated
(the result does not depend on it); a truthy left value hands over to the
right operand. `Or` is the mirror. -/
theorem and_or_short_circuit :
    ∀ (l r : Expr) (env env₁ : Env) (v : Value),
    evalExpr l env = .ok (v, env₁) →
    (is_truthy v = false →
      evalExpr (.and l r) env = .ok (v, env₁) ∧
      evalExpr (.or l r) env = evalExpr r env₁) ∧
    (is_truthy v = true →
      evalExpr (.and l r) env = evalExpr r env₁ ∧
      evalExpr (.or l r) env = .ok (v, env₁)) := by
  intro l r env env₁ v h
  constructor <;> intro ht <;> constructor <;> simp [evalExpr, h, ht]

/-- Claim C3 (witness): `nil and "x"` returns `nil` without touching the
right side; `1 or "x"` returns `1`. -/
theorem and_or_short_circuit_witness :
    evalExpr (.and (.literal (.prim .nil)) (.literal (.prim (.str "x")))) []
      = .ok (.prim .nil, []) ∧
    evalExpr (.or (.literal (.prim (.num 1))) (.literal (.prim (.str "x")))) []
      = .ok (.prim (.num 1), []) :=
  ⟨((and_or_short_circuit (.literal (.prim .nil)) (.literal (.prim (.str "x")))
      [] [] (.prim .nil) rfl).1 rfl).1,
   ((and_or_short_circuit (.literal (.prim (.num 1))) (.literal (.prim (.str "x")))
      [] [] (.prim (.num 1)) rfl).2 rfl).2⟩

/-- Claim C4: `Eq` on operands of differing variants evaluates to `false`
and `Ne` to `true`; on same-variant (non-callable) operands they compare
by value. -/
theorem eq_ne_variant_semantics :
    (∀ (a b : Value) (env : Env), variantIdx a ≠ variantIdx b →
      evalExpr (.binOp (.literal a) (.literal b) lox_eq) env
        = .ok (.prim (.boolean false), env) ∧
      evalExpr (.binOp (.literal a) (.literal b) lox_ne) env
        = .ok (.prim (.boolean true), env)) ∧
    (∀ (p q : PrimValue) (env : Env),
      evalExpr (.binOp (.literal (.prim p)) (.literal (.prim q)) lox_eq) env
        = .ok (.prim (.boolean (p = q)), env) ∧
      evalExpr (.binOp (.literal (.prim p)) (.literal (.prim q)) lox_ne) env
        = .ok (.prim (.boolean (!(p = q))), env)) := by
  constructor
  · intro a b env h
    have hv : valueEq a b = false := by
      cases a with
      | prim p =>
          cases b with
          | prim q =>
              have hpq : p ≠ q := by
                intro he
                exact h (by rw [he])
              simp [valueEq, hpq]
          | callable c => simp [valueEq]
          | instanceVal cls fields => simp [valueEq]
      | callable c => simp [valueEq]
      | instanceVal cls fields => simp [valueEq]
    exact ⟨by simp [evalExpr, lox_eq, hv], by simp [evalExpr, lox_ne, hv]⟩
  · intro p q env
    exact ⟨by simp [evalExpr, lox_eq, valueEq], by simp [evalExpr, lox_ne, valueEq]⟩

/-- Claim C4 (witness): `1 == true` evaluates to `false` and `1 != true`
to `true`. -/
theorem eq_ne_variant_semantics_witness :
    evalExpr (.binOp (.literal (.prim (.num 1))) (.literal (.prim (.boolean true))) lox_eq) []
      = .ok (.prim (.boolean false), []) ∧
    evalExpr (.binOp (.literal (.prim (.num 1))) (.literal (.prim (.boolean true))) lox_ne) []
      = .ok (.prim (.boolean true), []) :=
  eq_ne_variant_semantics.1 (.prim (.num 1)) (.prim (.boolean true)) [] (by decide)

/-- Claim C5: each of the four arithmetic operators fails with a type
error whenever either operand is not a Number (String, Boolean, Nil,
callable or instance). -/
theorem arith_non_numeric_type_error :
    ∀ (o : ArithOp) (a b : Value) (env : Env),
    (Value.isNum a = false ∨ Value.isNum b = false) →
    evalExpr (.binOp (.literal a) (.literal b) o.toFun) env
      = .error (.typeError "operandos devem ser números.") := by
  intro o a b env h
  have hab : o.toFun a b = .error (.typeError "operandos devem ser números.") := by
    cases o <;>
      cases a with
      | prim p =>
          cases p <;> cases b with
          | prim q =>
              cases q <;>
                simp_all [ArithOp.toFun, lox_add, lox_sub, lox_mul, lox_truediv, Value.isNum]
          | _ => simp_all [ArithOp.toFun, lox_add, lox_sub, lox_mul, lox_truediv, Value.isNum]
      | _ => simp_all [ArithOp.toFun, lox_add, lox_sub, lox_mul, lox_truediv, Value.isNum]
  simp [evalExpr, hab]

/-- Claim C5 (witness): `"a" + 1` fails with a type error. -/
theorem arith_non_numeric_type_error_witness :
    evalExpr (.binOp (.literal (.prim (.str "a"))) (.literal (.prim (.num 1))) ArithOp.add.toFun) []
      = .error (.typeError "operandos devem ser números.") :=
  arith_non_numeric_type_error .add (.prim (.str "a")) (.prim (.num 1)) [] (Or.inl rfl)

/-- Claim C6: assigning to a name bound nowhere in the scope chain fails
with an undefined-variable error and creates no binding (the assignment
itself yields `none`, and evaluation aborts with the error). -/
theorem assign_undeclared_fails :
    ∀ (name : String) (e : Expr) (env env₁ : Env) (v : Value),
    evalExpr e env = .ok (v, env₁) →
    lookupEnv env₁ name = none →
    assignEnv env₁ name v = none ∧
    evalExpr (.assign name e) env = .error (.undefinedVariable name) := by
  intro name e env env₁ v h hl
  have ha := assignEnv_of_lookup_none env₁ name v hl
  exact ⟨ha, by simp [evalExpr, h, ha]⟩

/-- Claim C6 (witness): `x = nil` with `x` never declared fails with an
undefined-variable error. -/
theorem assign_undeclared_fails_witness :
    assignEnv [] "x" (.prim .nil) = none ∧
    evalExpr (.assign "x" (.literal (.prim .nil))) []
      = .error (.undefinedVariable "x") :=
  assign_undeclared_fails "x" (.literal (.prim .nil)) [] [] (.prim .nil) rfl rfl

/-- Claim C7: `Neg` on a Number negates it and `Neg` on String or Nil
fails with a type error, as claimed — but on a Boolean operand the
`isinstance(val, (int, float))` guard passes (Python `bool` is a subclass
of `int`), so `-true` evaluates to `Number (-1)` and `-false` to
`Number 0` instead of failing. -/
theorem neg_boolean_returns_number :
    evalExpr (.unaryOp .neg (.literal (.prim (.boolean true)))) []
      = .ok (.prim (.num (-1)), []) ∧
    evalExpr (.unaryOp .neg (.literal (.prim (.boolean false)))) []
      = .ok (.prim (.num 0), []) ∧
    (∀ q : ℚ, evalExpr (.unaryOp .neg (.literal (.prim (.num q)))) []
      = .ok (.prim (.num (-q)), [])) ∧
    (∀ s : String, evalExpr (.unaryOp .neg (.literal (.prim (.str s)))) []
      = .error (.typeError "operando deve ser número.")) ∧
    evalExpr (.unaryOp .neg (.literal (.prim .nil))) []
      = .error (.typeError "operando deve ser número.") :=
  ⟨rfl, rfl, fun _ => rfl, fun _ => rfl, rfl⟩

/-- Claim C8 (counterexample): `print true;` writes `True`, the host
spelling, not the claimed `true`. -/
theorem print_boolean_host_spelling :
    evalStmt (.print (.literal (.prim (.boolean true)))) [] = .ok ([], ["True"]) ∧
    "True" ≠ "true" := ⟨rfl, by decide⟩

/-- Claim C8 (amended): `Print` writes the host language's default textual
form: a Boolean prints as `True`/`False`, Nil prints as `None`, a Number
with an integral value prints with a forced `.0` fractional part (`1.0`,
not `1`), and a String prints its raw contents unquoted. -/
theorem print_host_conventions :
    ∀ (env : Env) (b : Bool) (n : ℤ) (s : String),
    evalStmt (.print (.literal (.prim (.boolean b)))) env
      = .ok (env, [if b then "True" else "False"]) ∧
    evalStmt (.print (.literal (.prim .nil))) env = .ok (env, ["None"]) ∧
    evalStmt (.print (.literal (.prim (.num (n : ℚ))))) env
      = .ok (env, [toString n ++ ".0"]) ∧
    evalStmt (.print (.literal (.prim (.str s)))) env = .ok (env, [s]) := by
  intro env b n s
  refine ⟨?_, ?_, ?_, ?_⟩
  · cases b <;> simp [evalStmt, evalExpr, pyStr]
  · simp [evalStmt, evalExpr, pyStr]
  · simp [evalStmt, evalExpr, pyStr, pyNumStr, Rat.den_intCast, Rat.num_intCast]
  · simp [evalStmt, evalExpr, pyStr]

/-- Claim C9: a `GetAttr` whose attribute is found neither in the
instance's field mapping nor anywhere in its class's method-resolution
chain fails with an attribute error. -/
theorem getattr_miss_attribute_error :
    ∀ (obj : Expr) (attr : String) (env env₁ : Env) (cls : LoxClass)
      (fields : List (String × Value)),
    evalExpr obj env = .ok (.instanceVal cls fields, env₁) →
    fields.lookup attr = none →
    findMethod cls attr = none →
    evalExpr (.getattr obj attr) env = .error (.attributeError attr) := by
  intro obj attr env env₁ cls fields h hf hm
  simp [evalExpr, h, getattrValue, hf, hm]

/-- Claim C9 (witness): reading `x` off an instance of a class with no
fields and no methods fails with an attribute error. -/
theorem getattr_miss_attribute_error_witness :
    evalExpr (.getattr (.literal (.instanceVal emptyClass [])) "x") []
      = .error (.attributeError "x") :=
  getattr_miss_attribute_error (.literal (.instanceVal emptyClass [])) "x"
    [] [] emptyClass [] rfl rfl rfl

/-- Claim C10: the transformer rewrites a unary `!`/`-` over a `Call` node
into `Call(UnaryOp(op, callee), params)`, and — when the callee evaluates
to a callable — evaluating the rewritten form equals evaluating the
original `Call` and applying the unary operator to its result. -/
theorem transformer_unary_call_rewrite :
    ∀ (callee : Expr) (params : List Expr) (env env₁ : Env) (c : Callable),
    evalExpr callee env = .ok (.callable c, env₁) →
    transformer_not (.call callee params) = .call (.unaryOp .not_ callee) params ∧
    transformer_neg (.call callee params) = .call (.unaryOp .neg callee) params ∧
    (∀ u : UnOp, evalExpr (.call (.unaryOp u callee) params) env =
      (evalExpr (.call callee params) env).bind
        (fun p => (applyUn u p.1).map (fun r => (r, p.2)))) := by
  intro callee params env env₁ c h
  refine ⟨rfl, rfl, ?_⟩
  intro u
  simp [evalExpr, h]
  cases hargs : evalArgs params env₁ with
  | error e => simp [Callable.call]
  | ok p =>
      obtain ⟨args, env₂⟩ := p
      simp [Callable.call]
      cases hc : Callable.call c args with
      | error e => simp
      | ok r =>
          simp
          cases hr : applyUn u r with
          | error e => simp [Except.map, hr]
          | ok w => simp [Except.map, hr]

/-- Claim C10 (witness): `!id(nil)` in rewritten form agrees with applying
`Not` to the call's result. -/
theorem transformer_unary_call_rewrite_witness :
    evalExpr (.call (.unaryOp .not_ (.literal (.callable idNative))) [.literal (.prim .nil)]) [] =
      (evalExpr (.call (.literal (.callable idNative)) [.literal (.prim .nil)]) []).bind
        (fun p => (applyUn .not_ p.1).map (fun r => (r, p.2))) :=
  (transformer_unary_call_rewrite (.literal (.callable idNative)) [.literal (.prim .nil)]
    [] [] idNative rfl).2.2 .not_
